import Mathlib

/-!
# Verification of the truckersmp-cli launch orchestration

Shallow embedding of the launch-orchestration parts of `truckersmp-cli`
(`gamestarter.py`, `steamruntime_helper.py`, `utils.py`, `configfile.py`)
and proofs about them.

Paths are modelled as plain strings, `os.path.join` as slash concatenation
and `os.path.dirname` as dropping the final component.  Filesystem state
(`os.stat`) is modelled as a function from path to optional modification
time (`none` models a raised `OSError`).  Child processes are modelled by
a pool of process statuses indexed by pid.
-/

namespace TruckersmpCli

/-- Embedding of `os.path.join(a, b)` for a relative second component `b`
and a first component without a trailing slash (the only shape used by the
code under study). -/
def pyJoin (a b : String) : String := a ++ "/" ++ b

/-- Split a character list on `/` (the pieces between the slashes,
including empty pieces). -/
def splitOnSlash : List Char → List (List Char)
  | [] => [[]]
  | c :: rest =>
    if c = '/' then [] :: splitOnSlash rest
    else
      match splitOnSlash rest with
      | [] => [[c]]
      | h :: t => (c :: h) :: t

/-- Embedding of `os.path.dirname`: everything before the last `/`
(empty when the path has no `/`). -/
def pyDirname (s : String) : String :=
  String.mk (List.intercalate ['/'] ((splitOnSlash s.toList).dropLast))

/-- Embedding of Python `str.startswith`, over the character lists of the
strings. -/
def pyStartsWith (s pre : String) : Bool :=
  pre.toList.isPrefixOf s.toList

/--
Embedding of the Steam Runtime eligibility test from
`StarterProton.__init__` (`gamestarter.py`):
`major >= 6 or (major == 5 and minor >= 13)` applied to the
`(major, minor)` pair returned by `get_proton_version`.
-/
def steamRuntimeEligible (major minor : Int) : Bool :=
  decide (6 ≤ major) || (decide (major = 5) && decide (13 ≤ minor))

/--
Embedding of the full assignment to `self._use_steam_runtime` in
`StarterProton.__init__`:
`not Args.disable_steamruntime and (major >= 6 or (major == 5 and minor >= 13))`.
-/
def useSteamRuntime (disableSteamruntime : Bool) (major minor : Int) : Bool :=
  !disableSteamruntime && steamRuntimeEligible major minor

/--
The fields of the global configuration (`Args` and `Dir` in `variables.py`)
read by `StarterProton._determine_shared_paths` and
`StarterProton._init_args`.  `protonMajor`/`protonMinor` is the version pair
returned by `get_proton_version(Args.protondir)`.
-/
structure ProtonCfg where
  disableSteamruntime : Bool
  flatpakSteam : Bool
  singleplayer : Bool
  start : Bool
  gamedir : String
  protondir : String
  prefixdir : String
  moddir : String
  steamruntimedir : String
  scriptdir : String
  dataDir : String
  protonMajor : Int
  protonMinor : Int

/--
Host-environment inputs consumed by `StarterProton.__init__` and
`StarterProton._determine_shared_paths`: the Steam library directories
returned by `get_steam_library_dirs`, the Discord IPC socket paths returned
by `find_discord_ipc_sockets`, and the name the temporary sharing-workaround
directory would get from `tempfile.TemporaryDirectory`.
-/
structure HostEnv where
  steamLibraryDirs : List String
  discordSockets : List String
  tempdirName : String

/-- The Steam Runtime decision of `StarterProton.__init__` expressed over
the configuration record. -/
def cfgUseSteamRuntime (cfg : ProtonCfg) : Bool :=
  useSteamRuntime cfg.disableSteamruntime cfg.protonMajor cfg.protonMinor

/--
Embedding of `StarterProton._determine_shared_paths` (`gamestarter.py`).
Returns the shared-path list together with the value of
`self._steamruntime_usr_tempdir` after the call (`none` when no temporary
directory was created).
-/
def determineSharedPaths (cfg : ProtonCfg) (host : HostEnv) :
    List String × Option String :=
  if !cfgUseSteamRuntime cfg && !cfg.flatpakSteam then
    ([], none)
  else
    let sharedPaths := [cfg.gamedir, cfg.protondir, cfg.prefixdir, cfg.dataDir]
    let sharedPaths :=
      if cfg.singleplayer then
        if !cfg.flatpakSteam then sharedPaths ++ host.steamLibraryDirs
        else sharedPaths
      else sharedPaths ++ [cfg.moddir]
    let (sharedPaths, tempdir) :=
      if cfg.start && pyStartsWith cfg.scriptdir "/usr/" then
        (sharedPaths ++ [host.tempdirName], some host.tempdirName)
      else
        (sharedPaths ++ [cfg.scriptdir], none)
    let sharedPaths :=
      if 0 < host.discordSockets.length then sharedPaths ++ host.discordSockets
      else sharedPaths
    (sharedPaths, tempdir)

/-- The argument lists built by `StarterProton._init_args`
(`self._args` plus the derived `wineserver` entry). -/
structure ProtonArgs where
  wine : List String
  wineserver : List String
  proton : List String
  steamrt : List String
  flatpak : List String
  deriving Repr, DecidableEq

/-- `File.flatpak_helper` (`variables.py`): `flatpak_helper.py` in the
script directory. -/
def flatpakHelperFile (cfg : ProtonCfg) : String :=
  pyJoin cfg.scriptdir "flatpak_helper.py"

/-- `File.steamruntime_helper` (`variables.py`): `steamruntime_helper.py`
in the script directory. -/
def steamruntimeHelperFile (cfg : ProtonCfg) : String :=
  pyJoin cfg.scriptdir "steamruntime_helper.py"

/--
Embedding of `StarterProton._init_args` (`gamestarter.py`).
`sysExecutable` is `sys.executable`; `protonDistDir` is the result of
`get_proton_dist_dir()`.  The `wine`/`wineserver`/`proton` paths are the
entries of `self._path` used by `_init_args`.
-/
def initArgs (cfg : ProtonCfg) (host : HostEnv)
    (sysExecutable protonDistDir : String) : ProtonArgs :=
  let sharedTemp := determineSharedPaths cfg host
  let sharedPaths := sharedTemp.1
  let tempdir := sharedTemp.2
  let python := if cfgUseSteamRuntime cfg then "python3" else sysExecutable
  let steamrt :=
    if cfgUseSteamRuntime cfg then
      [pyJoin cfg.steamruntimedir "run"]
        ++ sharedPaths.flatMap (fun p => ["--filesystem", p])
        ++ ["--"]
    else []
  let flatpak :=
    if cfg.flatpakSteam then
      ["flatpak", "run", "--command=python3"]
        ++ sharedPaths.map (fun p => "--filesystem=" ++ p)
        ++ ["com.valvesoftware.Steam"]
        ++ [match tempdir with
            | none => flatpakHelperFile cfg
            | some t => pyJoin t "flatpak_helper.py"]
    else []
  let wine := steamrt
  let wineserver := wine
  let wine := wine ++ [pyJoin protonDistDir "bin/wine"]
  let wineserver := wineserver ++ [pyJoin protonDistDir "bin/wineserver"]
  let steamrt := steamrt ++ [python]
  let proton := [python] ++ [pyJoin cfg.protondir "proton", "run"]
  ⟨wine, wineserver, proton, steamrt, flatpak⟩

/-- A sample configuration with the Steam Runtime container ineligible
(Proton version (5, 12), as in the spec's Scenario B) and Flatpak not
selected. -/
def cfgNoSandbox : ProtonCfg where
  disableSteamruntime := false
  flatpakSteam := false
  singleplayer := true
  start := true
  gamedir := "/home/user/game"
  protondir := "/home/user/proton"
  prefixdir := "/home/user/prefix_dir"
  moddir := "/home/user/mods"
  steamruntimedir := "/home/user/runtime"
  scriptdir := "/home/user/scripts"
  dataDir := "/home/user/data"
  protonMajor := 5
  protonMinor := 12

/-- A sample host environment. -/
def hostSample : HostEnv where
  steamLibraryDirs := ["/library"]
  discordSockets := ["/run/user/1000/discord-ipc-0"]
  tempdirName := "/tmp/truckersmp-cli-temp"

/--
Embedding of `ConfigFile._configure_rich_presence` (`configfile.py`): the
final value of `Args.without_wine_discord_ipc_bridge`.

* `withoutBridgeCli` is the value coming from the command line;
* `gameSectionWithoutRP` is
  `Args.game in parser and parser[Args.game].getboolean("without-rich-presence", fallback=False)`;
* `singleplayer` is `"mp" not in Args.game` (by `args.py`, the game name
  contains `"mp"` exactly when `Args.singleplayer` is false);
* `wantsRichPresenceCnt` is the number of applicable third-party sections
  with `wants-rich-presence = true`.
-/
def resolveWithoutBridge (withoutBridgeCli gameSectionWithoutRP singleplayer : Bool)
    (wantsRichPresenceCnt : Nat) : Bool :=
  if !withoutBridgeCli
      && (gameSectionWithoutRP || (singleplayer && wantsRichPresenceCnt == 0)) then
    true
  else withoutBridgeCli

/-- The helper-script path appended by `StarterProton._setup_helper_args`:
`File.steamruntime_helper`, or its copy in the temporary sharing-workaround
directory when one was created. -/
def helperFileSelected (cfg : ProtonCfg) (tempdir : Option String) : String :=
  match tempdir with
  | none => steamruntimeHelperFile cfg
  | some t => pyJoin t "steamruntime_helper.py"

/--
Embedding of `StarterProton._setup_helper_args` (`gamestarter.py`).
`base` is the incoming `self._args["steamrt"]` list, `withoutBridge` the
resolved `Args.without_wine_discord_ipc_bridge`, `bridgePath` the result of
`setup_wine_discord_ipc_bridge()`, `thirdpartyWait` the value of
`self._cfg.thirdparty_wait` and `verbose` the `Args.verbose` count.
-/
def setupHelperArgs (cfg : ProtonCfg) (tempdir : Option String)
    (base : List String) (withoutBridge : Bool) (discordSockets : List String)
    (bridgePath : String) (thirdpartyExecutables : List String)
    (thirdpartyWait : Int) (verbose : Nat) : List String :=
  base ++ [helperFileSelected cfg tempdir]
    ++ (if !withoutBridge && decide (0 < discordSockets.length) then
          ["--early-executable", bridgePath, "--early-wait-before-start", "5"]
        else [])
    ++ thirdpartyExecutables.flatMap (fun exe => ["--executable", exe])
    ++ ["--wait-before-start", toString thirdpartyWait]
    ++ (if 0 < verbose then [if verbose == 1 then "-v" else "-vv"] else [])

/-- The guard under which `_setup_helper_args` adds the presence-bridge
(`--early-executable`) options, with `Args.without_wine_discord_ipc_bridge`
as resolved by `ConfigFile._configure_rich_presence`. -/
def bridgeScheduledProton (withoutBridgeCli gameSectionWithoutRP singleplayer : Bool)
    (wantsRichPresenceCnt : Nat) (discordSockets : List String) : Bool :=
  !(resolveWithoutBridge withoutBridgeCli gameSectionWithoutRP singleplayer
      wantsRichPresenceCnt)
    && decide (0 < discordSockets.length)

/--
Embedding of the helper-start section of `StarterWine.run`
(`gamestarter.py`): the command lines of the third-party processes spawned
before the game, in start order.  When `Args.without_wine_discord_ipc_bridge`
is false the bridge (`setup_wine_discord_ipc_bridge()`, here `discordBridge`)
is started first — followed in the source by a blocking 5-second sleep —
and then the configured third-party executables; Discord IPC socket
discovery is not consulted on this path.
-/
def wineThirdpartyCommands (wineCommand : String) (withoutBridge : Bool)
    (discordBridge : String) (thirdpartyExecutables : List String) :
    List (List String) :=
  (if !withoutBridge then [[wineCommand, discordBridge]] else [])
    ++ thirdpartyExecutables.map (fun path => [wineCommand, path])

/-- Embedding of the per-file body of `get_mtime` (`utils.py`): the
`st_mtime` of the file, or `0` when `os.stat` raises `OSError` (modelled by
`stat path = none`). -/
def mtimeOf (stat : String → Option Nat) (path : String) : Nat :=
  match stat path with
  | some t => t
  | none => 0

/-- Embedding of `get_mtime` (`utils.py`). -/
def get_mtime (stat : String → Option Nat) (files : List String) : List Nat :=
  files.map (mtimeOf stat)

/--
Embedding of the already-running branch of `wait_for_steam` (`utils.py`)
for `use_proton=True` and `Args.native_steam_dir == "auto"`: take the
maximum of the recorded `loginusers.vdf` timestamps and return the
parent-of-parent directory of the first checked path achieving it.
The `none` case of the final match is unreachable for a non-empty path
list (in the source, `max` of an empty sequence would raise instead).
-/
def detectSteamdirRunning (stat : String → Option Nat) (checked : List String) :
    Option String :=
  let ts := get_mtime stat checked
  let maxMtime := ts.foldl max 0
  match (checked.zip ts).find? (fun pt => pt.2 == maxMtime) with
  | some pt => some (pyDirname (pyDirname pt.1))
  | none => none

/--
Embedding of the inner `for` loop of `wait_for_loginvdf_update`
(`utils.py`): scan the checked `loginusers.vdf` paths in order and return
the parent-of-parent directory of the first one whose current modification
time exceeds its recorded timestamp (`stat` returning `none` models the
caught `OSError`).
-/
def scanLoginvdfs (stat : String → Option Nat) (checked : List String)
    (timestamps : List Nat) : Option String :=
  (checked.zip timestamps).findSome? (fun pt =>
    match stat pt.1 with
    | some t => if pt.2 < t then some (pyDirname (pyDirname pt.1)) else none
    | none => none)

/--
Embedding of the `while waittime > 0` loop of `wait_for_loginvdf_update`
(`utils.py`), with the iterations counted by `k` so that the filesystem may
change between iterations (`statAt k` is the `os.stat` view during
iteration `k`).  When the loop exhausts its bound the Proton path falls
back to `$XDG_DATA_HOME/Steam` for `--native-steam-dir auto` or to the
configured directory, and the Wine path returns `None`.
-/
def wait_for_loginvdf_update_loop (useProton : Bool)
    (nativeSteamDir xdgDataHome : String) (statAt : Nat → String → Option Nat)
    (checked : List String) (timestamps : List Nat) :
    Nat → Nat → Option String
  | _, 0 =>
    if useProton then
      some (if nativeSteamDir = "auto" then pyJoin xdgDataHome "Steam"
            else nativeSteamDir)
    else none
  | k, waittime + 1 =>
    match scanLoginvdfs (statAt k) checked timestamps with
    | some dir => some dir
    | none =>
      wait_for_loginvdf_update_loop useProton nativeSteamDir xdgDataHome statAt
        checked timestamps (k + 1) waittime

/-- Embedding of `wait_for_loginvdf_update` (`utils.py`); the default
timeout in the source is 99 seconds. -/
def wait_for_loginvdf_update (useProton : Bool)
    (nativeSteamDir xdgDataHome : String) (statAt : Nat → String → Option Nat)
    (checked : List String) (timestamps : List Nat) (timeout : Nat := 99) :
    Option String :=
  wait_for_loginvdf_update_loop useProton nativeSteamDir xdgDataHome statAt
    checked timestamps 0 timeout

/-- Status of a child process handle (`subprocess.Popen`). -/
inductive ProcStatus
  | running
  | exited
  deriving Repr, DecidableEq

/-- `Popen.poll()` returned a non-`None` exit status.  Pids outside the
pool do not occur in the program and are treated as exited. -/
def pollExited (pool : List ProcStatus) (pid : Nat) : Bool :=
  match pool[pid]? with
  | some ProcStatus.running => false
  | some ProcStatus.exited => true
  | none => true

/-- `Popen.kill()`: the process stops running. -/
def killPid (pool : List ProcStatus) (pid : Nat) : List ProcStatus :=
  pool.set pid ProcStatus.exited

/-- A pool of child processes together with the list of pids killed so
far (in kill order). -/
structure ReapState where
  pool : List ProcStatus
  kills : List Nat
  deriving Repr, DecidableEq

/--
Embedding of one iteration of the helper-teardown loop
(`StarterWine._cleanup` in `gamestarter.py` and the final loop of
`steamruntime_helper.main`):

    with proc:
        if proc.poll() is None:
            proc.kill()
        proc.wait()

`proc.wait()` on an exited or just-killed process returns without effect,
and neither `poll`, `kill` nor `wait` raises here, so the state change is
exactly: kill (and record) the process when it is still running.
-/
def reapOne (s : ReapState) (pid : Nat) : ReapState :=
  if pollExited s.pool pid then s
  else { pool := killPid s.pool pid, kills := s.kills ++ [pid] }

/-- Embedding of the full helper-teardown loop over a list of helper
process handles (the `stop_all` step of the specification). -/
def stopAll (procs : List Nat) (s : ReapState) : ReapState :=
  procs.foldl reapOne s

/-- An environment-variable map, as an association list in insertion
order (Python `dict` copied from `os.environ`; keys are unique). -/
abbrev Env := List (String × String)

/--
Embedding of the environment preparation in `start_thirdparty_programs`
(`steamruntime_helper.py`):

    env = os.environ.copy()
    if "LD_PRELOAD" in env:
        del env["LD_PRELOAD"]
-/
def stripLdPreload (env : Env) : Env :=
  if env.any (fun kv => kv.1 == "LD_PRELOAD") then
    env.filter (fun kv => kv.1 != "LD_PRELOAD")
  else env

/--
Embedding of `start_thirdparty_programs` (`steamruntime_helper.py`):
returns, for each requested executable, the spawned command line and the
environment passed to `subprocess.Popen` (`executables = None` models an
omitted option).
-/
def start_thirdparty_programs (executables : Option (List String))
    (protonRun : List String) (parentEnv : Env) : List (List String × Env) :=
  match executables with
  | none => []
  | some exes =>
    let env := stripLdPreload parentEnv
    exes.map (fun path => (protonRun ++ [path], env))

/-- Python exception classes relevant to the launch code. -/
inductive PyExc
  | osError
  | calledProcessError
  deriving Repr, DecidableEq

/--
Outcome of the context-managed `subprocess.Popen` invocation of the main
wrapped process: the process was spawned and waited for (any exit code,
non-zero included — `Popen`/`wait` do not raise for non-zero exits), or
the invocation raised an exception (`OSError` when the command cannot be
exec'd; `subprocess.CalledProcessError` never actually arises from
`Popen`, but the source has handlers for it, so it is modelled).
-/
inductive MainRunOutcome
  | completes (exitCode : Int)
  | raises (e : PyExc)
  deriving Repr, DecidableEq

/--
Embedding of `steamruntime_helper.main` (`steamruntime_helper.py`) after
argument parsing.  Early helpers get pids `0, ..., nEarly-1` in start
order, normal helpers the following pids.  The `try` block around the main
`Popen` catches only `subprocess.CalledProcessError`; any other exception
propagates out of `main`, skipping the final reap loop, which otherwise
runs over `thirdparty_processes + early_thirdparty_processes` (normal
helpers first).  Returns the final process pool/kill record and the
exception propagated out of `main`, if any.
-/
def steamruntimeHelperMain (earlyExecutables normalExecutables : Option (List String))
    (outcome : MainRunOutcome) : ReapState × Option PyExc :=
  let nEarly := (earlyExecutables.getD []).length
  let nNormal := (normalExecutables.getD []).length
  let earlyPids := List.range nEarly
  let normalPids := (List.range nNormal).map (fun i => nEarly + i)
  let s0 : ReapState := ⟨List.replicate (nEarly + nNormal) ProcStatus.running, []⟩
  match outcome with
  | MainRunOutcome.completes _ => (stopAll (normalPids ++ earlyPids) s0, none)
  | MainRunOutcome.raises PyExc.calledProcessError =>
      (stopAll (normalPids ++ earlyPids) s0, none)
  | MainRunOutcome.raises PyExc.osError => (s0, some PyExc.osError)

/-- Observable orchestrator events of one `StarterProton.run` call. -/
structure ProtonRunTrace where
  desktopEnabled : Bool
  desktopDisabled : Bool
  cleanupRan : Bool
  propagated : Option PyExc
  deriving Repr, DecidableEq

/--
Embedding of the control flow of `StarterProton.run` (`gamestarter.py`)
from the desktop-enable step onward: enable the Wine desktop registry
entries if `Args.wine_desktop` is set, run the main wrapped invocation
inside `try ... except subproc.CalledProcessError`, then disable the Wine
desktop (if it was enabled) and run `self._cleanup()`.  An exception other
than `CalledProcessError` from the `Popen` block is not caught and
propagates, skipping the desktop-disable and cleanup steps.
-/
def starterProtonRun (wineDesktop : Bool) (outcome : MainRunOutcome) :
    ProtonRunTrace :=
  let desktopEnabled := wineDesktop
  let runException : Option PyExc :=
    match outcome with
    | MainRunOutcome.completes _ => none
    | MainRunOutcome.raises PyExc.calledProcessError => none
    | MainRunOutcome.raises PyExc.osError => some PyExc.osError
  match runException with
  | some e => ⟨desktopEnabled, false, false, some e⟩
  | none => ⟨desktopEnabled, wineDesktop, true, none⟩

/-- One section of the parsed INI configuration file: its name and its
key/value entries. -/
structure IniSection where
  name : String
  entries : List (String × String)
  deriving Repr, DecidableEq

/-- The numeric value of a list of decimal digit characters. -/
def digitsVal (cs : List Char) : Nat :=
  cs.foldl (fun n c => 10 * n + (c.toNat - Char.toNat '0')) 0

/-- Embedding of Python `int()` applied to the decimal string forms that
appear in configuration files: optional surrounding whitespace, an
optional sign, then decimal digits; `none` models a raised `ValueError`. -/
def pyInt? (s : String) : Option Int :=
  let t := (s.toList.dropWhile Char.isWhitespace).reverse.dropWhile
    Char.isWhitespace |>.reverse
  let negCore : Bool × List Char :=
    match t with
    | '-' :: rest => (true, rest)
    | '+' :: rest => (false, rest)
    | _ => (false, t)
  if negCore.2 ≠ [] ∧ negCore.2.all Char.isDigit then
    some (if negCore.1 then -(digitsVal negCore.2 : Int) else (digitsVal negCore.2 : Int))
  else none

/-- The number of occurrences of `.` in a string
(Python `sect.count(".")`). -/
def countDots (s : String) : Nat := s.toList.count '.'

/--
The filter applied by `ConfigFile.parse_settings` (`configfile.py`): a
section is processed when its name starts with `thirdparty.`, it has an
`executable` entry, and it is not a game-specific section
(`sect.count(".") == 2`) for a different game.
-/
def sectionApplicable (game : String) (sect : IniSection) : Bool :=
  pyStartsWith sect.name "thirdparty."
    && (sect.entries.lookup "executable").isSome
    && !(countDots sect.name == 2
          && !pyStartsWith sect.name ("thirdparty." ++ game ++ "."))

/-- The `wait` value of a section as read by `parse_settings`:
`int(self._parser[sect]["wait"])` with `KeyError`/`ValueError` mapped
to `0`. -/
def sectionWait (sect : IniSection) : Int :=
  match sect.entries.lookup "wait" with
  | none => 0
  | some v =>
    match pyInt? v with
    | some w => w
    | none => 0

/-- Embedding of the `self._thirdparty_wait` accumulation of
`ConfigFile.parse_settings`: starting from the initial value `0`, fold
`max(wait, self._thirdparty_wait)` over the applicable sections in order. -/
def thirdpartyWait (game : String) (sections : List IniSection) : Int :=
  (sections.filter (sectionApplicable game)).foldl
    (fun acc sect => max (sectionWait sect) acc) 0

end TruckersmpCli

namespace TruckersmpCli

/-- C3 -- Sandbox (Steam Runtime container) eligibility is a pure function
of the parsed compatibility-runner version pair: it holds iff
`major >= 6` or (`major = 5` and `minor >= 13`), and it is monotone with
respect to the lexicographic order on `(major, minor)`. -/
theorem steamRuntimeEligible_spec :
    (∀ a b : Int, steamRuntimeEligible a b = true ↔ (6 ≤ a ∨ (a = 5 ∧ 13 ≤ b))) ∧
    (∀ a b c d : Int, (a < c ∨ (a = c ∧ b ≤ d)) →
      steamRuntimeEligible a b = true → steamRuntimeEligible c d = true) := by
  constructor
  · intro a b
    simp [steamRuntimeEligible]
  · intro a b c d hlex hab
    simp only [steamRuntimeEligible, Bool.or_eq_true, Bool.and_eq_true,
      decide_eq_true_eq] at hab ⊢
    rcases hab with h6 | ⟨h5, h13⟩
    · rcases hlex with hlt | ⟨he, _⟩
      · exact Or.inl (le_trans h6 (le_of_lt hlt))
      · exact Or.inl (he ▸ h6)
    · rcases hlex with hlt | ⟨he, hbd⟩
      · exact Or.inl (by omega)
      · exact Or.inr ⟨by omega, by omega⟩

/-- Witness for C3: instantiating the monotonicity half at
`(5, 13) ≤ (6, 0)`. -/
theorem steamRuntimeEligible_spec_witness :
    steamRuntimeEligible 6 0 = true :=
  steamRuntimeEligible_spec.2 5 13 6 0 (Or.inl (by norm_num)) (by decide)

/-- C4 -- With sandboxing disabled for the launch (the Steam Runtime
container ruled out by runner-version ineligibility or explicit opt-out,
and the Flatpak container not selected), `_determine_shared_paths` returns
the empty list and `_init_args` builds argument vectors with no sandbox
layer: they are exactly the bare wine/wineserver/helper/proton invocations,
and (for inputs that are not themselves sandbox tokens) contain no
sandbox-runtime `run` entrypoint, no `--filesystem` flags and no `--`
separator. -/
theorem sandbox_disabled_no_sandbox_layer
    (cfg : ProtonCfg) (host : HostEnv) (sysExecutable protonDistDir : String)
    (hsr : cfgUseSteamRuntime cfg = false) (hfp : cfg.flatpakSteam = false)
    (hclean : ∀ x ∈ [sysExecutable, pyJoin protonDistDir "bin/wine",
        pyJoin protonDistDir "bin/wineserver", pyJoin cfg.protondir "proton"],
      x ≠ "--" ∧ pyStartsWith x "--filesystem" = false ∧
        x ≠ pyJoin cfg.steamruntimedir "run") :
    determineSharedPaths cfg host = ([], none) ∧
    initArgs cfg host sysExecutable protonDistDir =
      ⟨[pyJoin protonDistDir "bin/wine"], [pyJoin protonDistDir "bin/wineserver"],
       [sysExecutable, pyJoin cfg.protondir "proton", "run"], [sysExecutable], []⟩ ∧
    ∀ l ∈ [(initArgs cfg host sysExecutable protonDistDir).wine,
           (initArgs cfg host sysExecutable protonDistDir).wineserver,
           (initArgs cfg host sysExecutable protonDistDir).proton,
           (initArgs cfg host sysExecutable protonDistDir).steamrt,
           (initArgs cfg host sysExecutable protonDistDir).flatpak],
      "--" ∉ l ∧ pyJoin cfg.steamruntimedir "run" ∉ l ∧
        ∀ tok ∈ l, pyStartsWith tok "--filesystem" = false := by
  have hpaths : determineSharedPaths cfg host = ([], none) := by
    simp [determineSharedPaths, hsr, hfp]
  have hargs : initArgs cfg host sysExecutable protonDistDir =
      ⟨[pyJoin protonDistDir "bin/wine"], [pyJoin protonDistDir "bin/wineserver"],
       [sysExecutable, pyJoin cfg.protondir "proton", "run"], [sysExecutable], []⟩ := by
    simp [initArgs, hpaths, hsr, hfp]
  obtain ⟨he₁, hf₁, hr₁⟩ := hclean sysExecutable (by simp)
  obtain ⟨he₂, hf₂, hr₂⟩ := hclean (pyJoin protonDistDir "bin/wine") (by simp)
  obtain ⟨he₃, hf₃, hr₃⟩ := hclean (pyJoin protonDistDir "bin/wineserver") (by simp)
  obtain ⟨he₄, hf₄, hr₄⟩ := hclean (pyJoin cfg.protondir "proton") (by simp)
  have hrunlen : "run" ≠ pyJoin cfg.steamruntimedir "run" := by
    intro h
    have hlen := congrArg String.length h
    simp [pyJoin, String.length_append] at hlen
    exact absurd hlen.2 (by decide)
  have notMemSingle : ∀ (a x : String), x ≠ a → a ∉ ([x] : List String) := by
    intro a x hx ha
    rw [List.mem_singleton] at ha
    exact hx ha.symm
  have notMemTriple : ∀ (a x y z : String),
      x ≠ a → y ≠ a → z ≠ a → a ∉ ([x, y, z] : List String) := by
    intro a x y z hx hy hz ha
    rcases List.mem_cons.mp ha with h | ha
    · exact hx h.symm
    rcases List.mem_cons.mp ha with h | ha
    · exact hy h.symm
    rw [List.mem_singleton] at ha
    exact hz ha.symm
  refine ⟨hpaths, hargs, ?_⟩
  intro l hl
  rw [hargs] at hl
  simp only [List.mem_cons, List.mem_singleton, List.not_mem_nil, or_false] at hl
  rcases hl with rfl | rfl | rfl | rfl | rfl
  · exact ⟨notMemSingle _ _ he₂, notMemSingle _ _ hr₂,
      fun tok ht => by rw [List.mem_singleton] at ht; rw [ht]; exact hf₂⟩
  · exact ⟨notMemSingle _ _ he₃, notMemSingle _ _ hr₃,
      fun tok ht => by rw [List.mem_singleton] at ht; rw [ht]; exact hf₃⟩
  · refine ⟨notMemTriple _ _ _ _ he₁ he₄ (by decide),
      notMemTriple _ _ _ _ hr₁ hr₄ hrunlen, ?_⟩
    intro tok ht
    rcases List.mem_cons.mp ht with h | ht
    · rw [h]; exact hf₁
    rcases List.mem_cons.mp ht with h | ht
    · rw [h]; exact hf₄
    rw [List.mem_singleton] at ht
    rw [ht]
    decide
  · exact ⟨notMemSingle _ _ he₁, notMemSingle _ _ hr₁,
      fun tok ht => by rw [List.mem_singleton] at ht; rw [ht]; exact hf₁⟩
  · exact ⟨List.not_mem_nil _, List.not_mem_nil _,
      fun tok ht => absurd ht (List.not_mem_nil _)⟩

/-- Witness for C4 at a concrete launch configuration with Proton
version (5, 12). -/
theorem sandbox_disabled_no_sandbox_layer_witness :
    cfgUseSteamRuntime cfgNoSandbox = false ∧
    determineSharedPaths cfgNoSandbox hostSample = ([], none) :=
  ⟨by decide,
   (sandbox_disabled_no_sandbox_layer cfgNoSandbox hostSample "/usr/bin/python3"
      "/home/user/proton/dist" (by decide) (by decide) (by decide)).1⟩

/-- C5 counterexample -- two of the claim's three conditions fail on the
code.  (1) A single-player launch (`singleplayer = true`, i.e. `"mp" not
in Args.game`) with one third-party section requesting rich presence
(`wantsRichPresenceCnt = 1`), the feature not disabled, and one Discord
socket discovered: the presence-bridge helper IS scheduled as an early
helper (`--early-executable` is added), refuting "for a single-player
launch no presence-bridge helper is started".  (2) On the Wine path, a
multiplayer launch with the feature not disabled starts the bridge first
even though socket discovery found nothing (`StarterWine.run` never
consults it), refuting "only if at least one inter-process communication
socket was discovered". -/
theorem bridge_started_for_singleplayer_counterexample :
    bridgeScheduledProton false false true 1 ["/run/user/1000/discord-ipc-0"] = true ∧
    resolveWithoutBridge false false true 1 = false ∧
    "--early-executable" ∈
      setupHelperArgs cfgNoSandbox none [] (resolveWithoutBridge false false true 1)
        ["/run/user/1000/discord-ipc-0"] "/data/wine-discord-ipc-bridge.exe"
        [] 0 0 ∧
    ["wine", "/data/wine-discord-ipc-bridge.exe"] ∈
      wineThirdpartyCommands "wine" (resolveWithoutBridge false false false 0)
        "/data/wine-discord-ipc-bridge.exe" [] := by decide

/-- C5 (amended) -- the presence-bridge helper is started as an early
helper iff the feature survives configuration resolution — it is disabled
by the command line, by `without-rich-presence` in the game section, or
when the launch is single-player and no third-party section requests rich
presence — and, on the Proton/Steam-Runtime-helper path only, at least one
Discord IPC socket was discovered; on the Wine path the bridge is started
(first, before the other third-party executables) whenever the feature
survives resolution, with no socket check.  The side conditions only rule
out the other option values colliding with the literal tokens involved. -/
theorem bridge_scheduled_amended
    (cfg : ProtonCfg) (tempdir : Option String) (base : List String)
    (withoutBridgeCli gameSectionWithoutRP singleplayer : Bool)
    (wantsRichPresenceCnt : Nat) (discordSockets : List String)
    (bridgePath wineCommand : String) (thirdpartyExecutables : List String)
    (waitArg : Int) (verbose : Nat)
    (hbase : "--early-executable" ∉ base)
    (hhelper : helperFileSelected cfg tempdir ≠ "--early-executable")
    (hexes : "--early-executable" ∉ thirdpartyExecutables)
    (hwait : toString waitArg ≠ "--early-executable")
    (hbridge : bridgePath ∉ thirdpartyExecutables) :
    (bridgeScheduledProton withoutBridgeCli gameSectionWithoutRP singleplayer
        wantsRichPresenceCnt discordSockets = true ↔
      (withoutBridgeCli = false ∧ gameSectionWithoutRP = false ∧
        (singleplayer = false ∨ 0 < wantsRichPresenceCnt) ∧ discordSockets ≠ [])) ∧
    ("--early-executable" ∈
        setupHelperArgs cfg tempdir base
          (resolveWithoutBridge withoutBridgeCli gameSectionWithoutRP singleplayer
            wantsRichPresenceCnt)
          discordSockets bridgePath thirdpartyExecutables waitArg verbose ↔
      bridgeScheduledProton withoutBridgeCli gameSectionWithoutRP singleplayer
        wantsRichPresenceCnt discordSockets = true) ∧
    ([wineCommand, bridgePath] ∈
        wineThirdpartyCommands wineCommand
          (resolveWithoutBridge withoutBridgeCli gameSectionWithoutRP singleplayer
            wantsRichPresenceCnt)
          bridgePath thirdpartyExecutables ↔
      resolveWithoutBridge withoutBridgeCli gameSectionWithoutRP singleplayer
        wantsRichPresenceCnt = false) := by
  have hresolve : ∀ cli g sp : Bool, ∀ cnt : Nat,
      (resolveWithoutBridge cli g sp cnt = false ↔
        (cli = false ∧ g = false ∧ (sp = false ∨ 0 < cnt))) := by
    intro cli g sp cnt
    cases cli <;> cases g <;> cases sp <;>
      simp [resolveWithoutBridge, Nat.pos_iff_ne_zero]
  constructor
  · rw [bridgeScheduledProton, Bool.and_eq_true, Bool.not_eq_true',
      decide_eq_true_eq, hresolve]
    constructor
    · rintro ⟨⟨h1, h2, h3⟩, h4⟩
      exact ⟨h1, h2, h3, List.ne_nil_of_length_pos h4⟩
    · rintro ⟨h1, h2, h3, h4⟩
      exact ⟨⟨h1, h2, h3⟩, List.length_pos.mpr h4⟩
  constructor
  · rw [setupHelperArgs, bridgeScheduledProton]
    constructor
    · intro hmem
      by_cases hsched : (!resolveWithoutBridge withoutBridgeCli gameSectionWithoutRP
          singleplayer wantsRichPresenceCnt && decide (0 < discordSockets.length)) = true
      · exact hsched
      exfalso
      rw [if_neg hsched, List.append_nil] at hmem
      have h1 : "--early-executable" ∉ ["--wait-before-start", toString waitArg] := by
        intro h
        rcases List.mem_cons.mp h with h | h
        · exact absurd h (by decide)
        · rw [List.mem_singleton] at h
          exact hwait h.symm
      have h2 : "--early-executable" ∉
          thirdpartyExecutables.flatMap (fun exe => ["--executable", exe]) := by
        intro h
        obtain ⟨exe, hexe, h⟩ := List.mem_flatMap.mp h
        rcases List.mem_cons.mp h with h | h
        · exact absurd h (by decide)
        · rw [List.mem_singleton] at h
          exact hexes (h ▸ hexe)
      have h3 : "--early-executable" ∉
          (if 0 < verbose then [if verbose == 1 then "-v" else "-vv"]
           else ([] : List String)) := by
        by_cases hv : 0 < verbose
        · rw [if_pos hv]
          intro h
          rw [List.mem_singleton] at h
          by_cases hv1 : (verbose == 1) = true
          · rw [if_pos hv1] at h
            exact absurd h (by decide)
          · rw [if_neg hv1] at h
            exact absurd h (by decide)
        · rw [if_neg hv]
          exact List.not_mem_nil _
      have h4 : "--early-executable" ∉ [helperFileSelected cfg tempdir] := by
        intro h
        rw [List.mem_singleton] at h
        exact hhelper h.symm
      simp only [List.mem_append] at hmem
      rcases hmem with (((h | h) | h) | h) | h
      · exact hbase h
      · exact h4 h
      · exact h2 h
      · exact h1 h
      · exact h3 h
    · intro hsched
      rw [if_pos hsched]
      simp
  · rw [wineThirdpartyCommands]
    constructor
    · intro hmem
      rcases List.mem_append.mp hmem with h | h
      · by_cases hw : resolveWithoutBridge withoutBridgeCli gameSectionWithoutRP
            singleplayer wantsRichPresenceCnt = false
        · exact hw
        · exfalso
          rw [Bool.not_eq_false] at hw
          rw [hw] at h
          exact absurd h (List.not_mem_nil _)
      · exfalso
        obtain ⟨path, hpath, heq⟩ := List.mem_map.mp h
        simp only [List.cons.injEq, and_true] at heq
        exact hbridge (heq.2 ▸ hpath)
    · intro hw
      apply List.mem_append.mpr
      left
      rw [hw]
      exact List.mem_singleton.mpr rfl

/-- Witness for the amended C5 at a concrete multiplayer launch with one
Discord socket, one third-party executable and an aggregate delay of 3;
the Wine-path conjunct is instantiated at the same configuration. -/
theorem bridge_scheduled_amended_witness :
    bridgeScheduledProton false false false 0 ["/run/user/1000/discord-ipc-0"] = true ∧
    "--early-executable" ∈
      setupHelperArgs cfgNoSandbox none [] (resolveWithoutBridge false false false 0)
        ["/run/user/1000/discord-ipc-0"] "/data/wine-discord-ipc-bridge.exe"
        ["/opt/tool"] 3 1 ∧
    ["wine", "/data/wine-discord-ipc-bridge.exe"] ∈
      wineThirdpartyCommands "wine" (resolveWithoutBridge false false false 0)
        "/data/wine-discord-ipc-bridge.exe" ["/opt/tool"] :=
  have h := bridge_scheduled_amended cfgNoSandbox none [] false false false 0
    ["/run/user/1000/discord-ipc-0"] "/data/wine-discord-ipc-bridge.exe" "wine"
    ["/opt/tool"] 3 1 (by decide) (by decide) (by decide) (by decide) (by decide)
  have hs := h.1.mpr ⟨rfl, rfl, Or.inl rfl, by decide⟩
  ⟨hs, h.2.1.mpr hs, h.2.2.mpr (by decide)⟩

theorem init_le_foldl_max (l : List Nat) : ∀ a : Nat, a ≤ l.foldl max a := by
  induction l with
  | nil => intro a; exact le_refl a
  | cons b t ih =>
    intro a
    rw [List.foldl_cons]
    exact le_trans (le_max_left a b) (ih (max a b))

theorem mem_le_foldl_max (l : List Nat) : ∀ (a x : Nat), x ∈ l → x ≤ l.foldl max a := by
  induction l with
  | nil => intro a x hx; cases hx
  | cons b t ih =>
    intro a x hx
    rw [List.foldl_cons]
    rcases List.mem_cons.mp hx with rfl | hx
    · exact le_trans (le_max_right a x) (init_le_foldl_max t (max a x))
    · exact ih (max a b) x hx

theorem foldl_max_eq_or_mem (l : List Nat) : ∀ a : Nat,
    l.foldl max a = a ∨ l.foldl max a ∈ l := by
  induction l with
  | nil => intro a; exact Or.inl rfl
  | cons b t ih =>
    intro a
    rw [List.foldl_cons]
    rcases ih (max a b) with h | h
    · rcases max_choice a b with hm | hm
      · exact Or.inl (h.trans hm)
      · exact Or.inr (by rw [h, hm]; exact List.mem_cons_self b t)
    · exact Or.inr (List.mem_cons_of_mem b h)

theorem zip_map_self (f : String → Nat) : ∀ l : List String,
    l.zip (l.map f) = l.map (fun x => (x, f x)) := by
  intro l
  induction l with
  | nil => rfl
  | cons b t ih => simp [ih]

/-- C6 -- with Steam already running and the install directory
auto-detected, the returned directory is the parent-of-parent of the
candidate `loginusers.vdf` file whose recorded modification timestamp is
strictly greatest (missing files recorded as timestamp 0). -/
theorem detect_steamdir_most_recent (stat : String → Option Nat)
    (checked : List String) (p : String) (hp : p ∈ checked)
    (hmax : ∀ q ∈ checked, q ≠ p → mtimeOf stat q < mtimeOf stat p) :
    detectSteamdirRunning stat checked = some (pyDirname (pyDirname p)) := by
  have hple : mtimeOf stat p ≤ (get_mtime stat checked).foldl max 0 :=
    mem_le_foldl_max _ 0 _ (List.mem_map_of_mem (mtimeOf stat) hp)
  have hmeq : (get_mtime stat checked).foldl max 0 = mtimeOf stat p := by
    rcases foldl_max_eq_or_mem (get_mtime stat checked) 0 with h0 | hmem
    · omega
    · rcases List.mem_map.mp hmem with ⟨q, hq, hqe⟩
      by_cases hqp : q = p
      · rw [← hqe, hqp]
      · have := hmax q hq hqp
        omega
  rw [detectSteamdirRunning, get_mtime, zip_map_self]
  rcases hfind : (checked.map (fun x => (x, mtimeOf stat x))).find?
      (fun pt => pt.2 == (List.map (mtimeOf stat) checked).foldl max 0) with _ | pt
  · exfalso
    have hnone := List.find?_eq_none.mp hfind (p, mtimeOf stat p)
      (List.mem_map_of_mem _ hp)
    rw [get_mtime] at hmeq
    simp [hmeq] at hnone
  · have hpred := List.find?_some hfind
    have hmem := List.mem_of_find?_eq_some hfind
    rcases List.mem_map.mp hmem with ⟨q, hq, hqe⟩
    rw [get_mtime] at hmeq
    have hq2 : mtimeOf stat q = mtimeOf stat p := by
      have hpt2 : pt.2 = (List.map (mtimeOf stat) checked).foldl max 0 := by
        simpa using hpred
      rw [← hqe] at hpt2
      simpa [hmeq] using hpt2
    have hqp : q = p := by
      by_contra hne
      have := hmax q hq hne
      omega
    rw [hfind, ← hqe, hqp]

/-- Witness for C6: two candidate files with recorded timestamps 100 and
250 — the directory owning the timestamp-250 file is selected
(spec Scenario C). -/
theorem detect_steamdir_most_recent_witness :
    detectSteamdirRunning
      (fun p => if p = "/steam1/config/loginusers.vdf" then some 100
                else if p = "/steam2/config/loginusers.vdf" then some 250 else none)
      ["/steam1/config/loginusers.vdf", "/steam2/config/loginusers.vdf"] =
      some "/steam2" := by
  rw [detect_steamdir_most_recent _ _ "/steam2/config/loginusers.vdf"
    (by decide) (by decide)]
  decide

theorem scanLoginvdfs_none (stat : String → Option Nat) (checked : List String)
    (timestamps : List Nat)
    (h : ∀ pt ∈ checked.zip timestamps, ∀ t, stat pt.1 = some t → ¬ pt.2 < t) :
    scanLoginvdfs stat checked timestamps = none := by
  rw [scanLoginvdfs, List.findSome?_eq_none_iff]
  intro pt hpt
  rcases hstat : stat pt.1 with _ | t
  · rfl
  · have := h pt hpt t hstat
    simp [this]

/-- C7 -- when Steam is started and no candidate login-state file's
timestamp advances past its recorded value in any of the poll iterations,
the bounded poll (99 one-second waits) returns the conventional default
install path (`$XDG_DATA_HOME/Steam` for `--native-steam-dir auto`) or the
separately configured path, and no exception propagates (the embedded
function is total; `stat` errors are the caught `OSError`s). -/
theorem loginvdf_timeout_fallback (nativeSteamDir xdgDataHome : String)
    (statAt : Nat → String → Option Nat) (checked : List String)
    (timestamps : List Nat)
    (hnochange : ∀ k : Nat, ∀ pt ∈ checked.zip timestamps,
      ∀ t, statAt k pt.1 = some t → ¬ pt.2 < t) :
    wait_for_loginvdf_update true nativeSteamDir xdgDataHome statAt checked
        timestamps 99 =
      some (if nativeSteamDir = "auto" then pyJoin xdgDataHome "Steam"
            else nativeSteamDir) := by
  rw [wait_for_loginvdf_update]
  have hloop : ∀ (w k : Nat),
      wait_for_loginvdf_update_loop true nativeSteamDir xdgDataHome statAt
          checked timestamps k w =
        some (if nativeSteamDir = "auto" then pyJoin xdgDataHome "Steam"
              else nativeSteamDir) := by
    intro w
    induction w with
    | zero => intro k; rfl
    | succ w ih =>
      intro k
      rw [wait_for_loginvdf_update_loop,
        scanLoginvdfs_none (statAt k) checked timestamps (hnochange k)]
      exact ih (k + 1)
  exact hloop 99 0

/-- Witness for C7: one candidate file that never appears on disk during
the poll — the `auto` fallback `$XDG_DATA_HOME/Steam` is returned
(spec Scenario D). -/
theorem loginvdf_timeout_fallback_witness :
    wait_for_loginvdf_update true "auto" "/home/user/.local/share"
      (fun _ _ => none) ["/home/user/.local/share/Steam/config/loginusers.vdf"]
      [5] 99 =
      some (if ("auto" : String) = "auto"
            then pyJoin "/home/user/.local/share" "Steam" else "auto") :=
  loginvdf_timeout_fallback "auto" "/home/user/.local/share" (fun _ _ => none)
    ["/home/user/.local/share/Steam/config/loginusers.vdf"] [5]
    (fun _ _ _ _ ht => Option.noConfusion ht)


theorem reapOne_preserves_exited (s : ReapState) (q pid : Nat)
    (h : pollExited s.pool pid = true) :
    pollExited (reapOne s q).pool pid = true := by
  rw [reapOne]
  by_cases hq : pollExited s.pool q = true
  · rw [if_pos hq]
    exact h
  · rw [if_neg hq]
    show pollExited (killPid s.pool q) pid = true
    rw [pollExited, killPid, List.getElem?_set]
    by_cases hqp : q = pid
    · rw [if_pos hqp]
      by_cases hlt : q < s.pool.length
      · rw [if_pos hlt]
      · rw [if_neg hlt]
    · rw [if_neg hqp]
      exact h

theorem stopAll_preserves_exited (procs : List Nat) : ∀ (s : ReapState) (pid : Nat),
    pollExited s.pool pid = true → pollExited (stopAll procs s).pool pid = true := by
  induction procs with
  | nil => intro s pid h; exact h
  | cons q t ih =>
    intro s pid h
    exact ih (reapOne s q) pid (reapOne_preserves_exited s q pid h)

theorem reapOne_exits (s : ReapState) (pid : Nat) :
    pollExited (reapOne s pid).pool pid = true := by
  rw [reapOne]
  by_cases hq : pollExited s.pool pid = true
  · rw [if_pos hq]
    exact hq
  · rw [if_neg hq]
    show pollExited (killPid s.pool pid) pid = true
    rw [pollExited, killPid, List.getElem?_set]
    rw [if_pos rfl]
    by_cases hlt : pid < s.pool.length
    · rw [if_pos hlt]
    · rw [if_neg hlt]

theorem stopAll_exits_all (procs : List Nat) : ∀ (s : ReapState), ∀ pid ∈ procs,
    pollExited (stopAll procs s).pool pid = true := by
  induction procs with
  | nil => intro s pid h; cases h
  | cons q t ih =>
    intro s pid h
    rcases List.mem_cons.mp h with rfl | h
    · exact stopAll_preserves_exited t (reapOne s pid) pid (reapOne_exits s pid)
    · exact ih (reapOne s q) pid h

theorem stopAll_noop_of_exited (procs : List Nat) : ∀ s : ReapState,
    (∀ pid ∈ procs, pollExited s.pool pid = true) → stopAll procs s = s := by
  induction procs with
  | nil => intro s _; rfl
  | cons q t ih =>
    intro s h
    have hq : reapOne s q = s := by
      rw [reapOne, if_pos (h q (List.mem_cons_self q t))]
    show stopAll t (reapOne s q) = s
    rw [hq]
    exact ih s (fun pid hp => h pid (List.mem_cons_of_mem q hp))

/-- C8 -- helper teardown is idempotent: after one pass of the stop-all
loop every listed process polls as exited, and a second pass over the same
list is the identity on the process pool and performs no kill (the `kills`
record is unchanged, so no process is ever killed twice; the embedded loop
is total, so no exception is raised). -/
theorem stop_all_idempotent (procs : List Nat) (s : ReapState) :
    (∀ pid ∈ procs, pollExited (stopAll procs s).pool pid = true) ∧
    stopAll procs (stopAll procs s) = stopAll procs s :=
  ⟨stopAll_exits_all procs s,
   stopAll_noop_of_exited procs (stopAll procs s) (stopAll_exits_all procs s)⟩

/-- Witness for C8 at a concrete two-process pool with one process still
running and one already exited. -/
theorem stop_all_idempotent_witness :
    pollExited (stopAll [0, 1] ⟨[ProcStatus.running, ProcStatus.exited], []⟩).pool
      0 = true ∧
    stopAll [0, 1] (stopAll [0, 1] ⟨[ProcStatus.running, ProcStatus.exited], []⟩) =
      stopAll [0, 1] ⟨[ProcStatus.running, ProcStatus.exited], []⟩ :=
  ⟨(stop_all_idempotent [0, 1] ⟨[ProcStatus.running, ProcStatus.exited], []⟩).1 0
      (by decide),
   (stop_all_idempotent [0, 1] ⟨[ProcStatus.running, ProcStatus.exited], []⟩).2⟩

theorem lookup_filter_ne (key k : String) (hk : k ≠ key) : ∀ env : Env,
    (env.filter (fun kv => kv.1 != key)).lookup k = env.lookup k := by
  intro env
  induction env with
  | nil => rfl
  | cons kv t ih =>
    obtain ⟨a, b⟩ := kv
    rw [List.filter_cons]
    by_cases ha : a = key
    · have hbne : ((a, b).1 != key) = false := by simp [ha]
      rw [hbne]
      have hka : (k == a) = false := by
        rw [beq_eq_false_iff_ne]
        exact fun h => hk (h.trans ha)
      simp only [Bool.false_eq_true, if_false, List.lookup, hka]
      exact ih
    · have hbne : ((a, b).1 != key) = true := by simp [ha]
      rw [hbne, if_pos rfl]
      cases hka : k == a with
      | false => simp only [List.lookup, hka]; exact ih
      | true => simp only [List.lookup, hka]

theorem lookup_filter_self (key : String) : ∀ env : Env,
    (env.filter (fun kv => kv.1 != key)).lookup key = none := by
  intro env
  induction env with
  | nil => rfl
  | cons kv t ih =>
    obtain ⟨a, b⟩ := kv
    rw [List.filter_cons]
    by_cases ha : a = key
    · have hbne : ((a, b).1 != key) = false := by simp [ha]
      rw [hbne]
      simp only [Bool.false_eq_true, if_false]
      exact ih
    · have hbne : ((a, b).1 != key) = true := by simp [ha]
      rw [hbne, if_pos rfl]
      have hka : (key == a) = false := by
        rw [beq_eq_false_iff_ne]
        exact fun h => ha h.symm
      simp only [List.lookup, hka]
      exact ih

theorem lookup_of_not_any (key : String) : ∀ env : Env,
    env.any (fun kv => kv.1 == key) = false → env.lookup key = none := by
  intro env
  induction env with
  | nil => intro _; rfl
  | cons kv t ih =>
    obtain ⟨a, b⟩ := kv
    intro h
    rw [List.any_cons, Bool.or_eq_false_iff] at h
    have hka : (key == a) = false := by
      rw [beq_eq_false_iff_ne]
      intro hkey
      rw [hkey] at h
      simp at h
    simp only [List.lookup, hka]
    exact ih h.2

/-- C9 -- every third-party helper spawned by `start_thirdparty_programs`
receives a copy of the parent environment from which `LD_PRELOAD` has been
removed and in which no other key is changed: looking up `LD_PRELOAD` in
the helper environment gives nothing, and looking up any other key gives
exactly the parent environment's value. -/
theorem helper_env_strips_only_ld_preload
    (executables : Option (List String)) (protonRun : List String)
    (parentEnv : Env) (cmd : List String) (env : Env)
    (hmem : (cmd, env) ∈ start_thirdparty_programs executables protonRun parentEnv) :
    env.lookup "LD_PRELOAD" = none ∧
    ∀ k : String, k ≠ "LD_PRELOAD" → env.lookup k = parentEnv.lookup k := by
  have henv : env = stripLdPreload parentEnv := by
    rcases executables with _ | exes
    · exact absurd hmem (List.not_mem_nil _)
    · rw [start_thirdparty_programs] at hmem
      obtain ⟨path, _, hpe⟩ := List.mem_map.mp hmem
      exact (congrArg Prod.snd hpe).symm
  subst henv
  rw [stripLdPreload]
  by_cases hany : parentEnv.any (fun kv => kv.1 == "LD_PRELOAD") = true
  · rw [if_pos hany]
    exact ⟨lookup_filter_self _ parentEnv,
      fun k hk => lookup_filter_ne _ k hk parentEnv⟩
  · rw [if_neg hany]
    exact ⟨lookup_of_not_any _ parentEnv (Bool.not_eq_true _ ▸ hany),
      fun k _ => rfl⟩

/-- Witness for C9 at a concrete two-entry environment containing
`LD_PRELOAD` and `HOME`. -/
theorem helper_env_strips_only_ld_preload_witness :
    (stripLdPreload [("LD_PRELOAD", "/overlay.so"), ("HOME", "/home/user")]).lookup
      "LD_PRELOAD" = none ∧
    (stripLdPreload [("LD_PRELOAD", "/overlay.so"), ("HOME", "/home/user")]).lookup
        "HOME" =
      List.lookup "HOME" [("LD_PRELOAD", "/overlay.so"), ("HOME", "/home/user")] :=
  have h := helper_env_strips_only_ld_preload (some ["/opt/tool"])
    ["python3", "/home/user/proton/proton", "run"]
    [("LD_PRELOAD", "/overlay.so"), ("HOME", "/home/user")]
    (["python3", "/home/user/proton/proton", "run"] ++ ["/opt/tool"])
    (stripLdPreload [("LD_PRELOAD", "/overlay.so"), ("HOME", "/home/user")])
    (by decide)
  ⟨h.1, h.2 "HOME" (by decide)⟩

theorem init_le_foldl_maxf (f : IniSection → Int) : ∀ (l : List IniSection) (a : Int),
    a ≤ l.foldl (fun acc sect => max (f sect) acc) a := by
  intro l
  induction l with
  | nil => intro a; exact le_refl a
  | cons b t ih =>
    intro a
    rw [List.foldl_cons]
    exact le_trans (le_max_right (f b) a) (ih (max (f b) a))

theorem mem_le_foldl_maxf (f : IniSection → Int) : ∀ (l : List IniSection) (a : Int),
    ∀ x ∈ l, f x ≤ l.foldl (fun acc sect => max (f sect) acc) a := by
  intro l
  induction l with
  | nil => intro a x hx; cases hx
  | cons b t ih =>
    intro a x hx
    rw [List.foldl_cons]
    rcases List.mem_cons.mp hx with rfl | hx
    · exact le_trans (le_max_left (f x) a) (init_le_foldl_maxf f t _)
    · exact ih _ x hx

theorem foldl_maxf_eq_or_mem (f : IniSection → Int) : ∀ (l : List IniSection) (a : Int),
    l.foldl (fun acc sect => max (f sect) acc) a = a ∨
      ∃ x ∈ l, l.foldl (fun acc sect => max (f sect) acc) a = f x := by
  intro l
  induction l with
  | nil => intro a; exact Or.inl rfl
  | cons b t ih =>
    intro a
    rw [List.foldl_cons]
    rcases ih (max (f b) a) with h | ⟨x, hx, hfx⟩
    · rcases max_choice (f b) a with hm | hm
      · exact Or.inr ⟨b, List.mem_cons_self b t, h.trans hm⟩
      · exact Or.inl (h.trans hm)
    · exact Or.inr ⟨x, List.mem_cons_of_mem b hx, hfx⟩

/-- C10 counterexample -- a single applicable third-party section with a
valid negative integer `wait = -5`: the claimed "maximum of the sections'
wait values" is `-5`, but `parse_settings` yields `0` (the fold starts at
the initial value `0`), so the aggregate delay does not equal that
maximum. -/
theorem thirdparty_wait_negative_counterexample :
    sectionApplicable "ets2mp"
      ⟨"thirdparty.prog1", [("executable", "/opt/tool"), ("wait", "-5")]⟩ = true ∧
    sectionWait
      ⟨"thirdparty.prog1", [("executable", "/opt/tool"), ("wait", "-5")]⟩ = -5 ∧
    thirdpartyWait "ets2mp"
      [⟨"thirdparty.prog1", [("executable", "/opt/tool"), ("wait", "-5")]⟩] =
      0 := by decide

/-- C10 (amended) -- the aggregate third-party delay equals the maximum of
`0` and the applicable sections' integer `wait` values (missing or
non-integer `wait` counting as 0): it is non-negative, it bounds every
applicable section's wait value, and it is `0` or one of those values. -/
theorem thirdparty_wait_clamped_max (game : String) (sections : List IniSection) :
    0 ≤ thirdpartyWait game sections ∧
    (∀ sect ∈ sections.filter (sectionApplicable game),
      sectionWait sect ≤ thirdpartyWait game sections) ∧
    (thirdpartyWait game sections = 0 ∨
      ∃ sect ∈ sections.filter (sectionApplicable game),
        thirdpartyWait game sections = sectionWait sect) := by
  simp only [thirdpartyWait]
  exact ⟨init_le_foldl_maxf sectionWait _ 0,
    fun sect h => mem_le_foldl_maxf sectionWait _ 0 sect h,
    foldl_maxf_eq_or_mem sectionWait _ 0⟩

/-- Witness for the amended C10 at the concrete negative-wait section. -/
theorem thirdparty_wait_clamped_max_witness :
    0 ≤ thirdpartyWait "ets2mp"
        [⟨"thirdparty.prog1", [("executable", "/opt/tool"), ("wait", "-5")]⟩] ∧
    sectionWait
        ⟨"thirdparty.prog1", [("executable", "/opt/tool"), ("wait", "-5")]⟩ ≤
      thirdpartyWait "ets2mp"
        [⟨"thirdparty.prog1", [("executable", "/opt/tool"), ("wait", "-5")]⟩] :=
  have h := thirdparty_wait_clamped_max "ets2mp"
    [⟨"thirdparty.prog1", [("executable", "/opt/tool"), ("wait", "-5")]⟩]
  ⟨h.1, h.2.1 _ (by decide)⟩

/-- C1 -- exhibit of the reaping code bug in `steamruntime_helper.main`:
with one early helper (pid 0) and one normal helper (pid 1) spawned, an
`OSError` from the main `Popen` (the wrapped command cannot be exec'd)
propagates — the `try` block catches only `subprocess.CalledProcessError`,
which `Popen` never raises — so the reap loop never runs and both helpers
are left running, violating "every helper is reaped on every exit path".
When the main process runs and exits (even non-zero) the reap loop does
run: both helpers end exited, killed in reap order (normal, then early). -/
theorem helper_reaping_skipped_on_popen_oserror :
    steamruntimeHelperMain (some ["/data/wine-discord-ipc-bridge.exe"])
        (some ["/opt/tool"]) (MainRunOutcome.raises PyExc.osError) =
      (⟨[ProcStatus.running, ProcStatus.running], []⟩, some PyExc.osError) ∧
    steamruntimeHelperMain (some ["/data/wine-discord-ipc-bridge.exe"])
        (some ["/opt/tool"]) (MainRunOutcome.completes 1) =
      (⟨[ProcStatus.exited, ProcStatus.exited], [1, 0]⟩, none) := by decide

/-- C2 -- exhibit of the `StarterProton.run` code bug: a non-zero exit of
the wrapped invocation does not crash the orchestrator (desktop-disable
and cleanup both run), but an `OSError` from the `Popen` (failure to exec)
is not caught — the handler names only `subprocess.CalledProcessError`,
which `Popen` never raises — so with the Wine desktop enabled the
exception propagates and both the desktop-disable toggle and `_cleanup`
are skipped. -/
theorem proton_run_exec_failure_skips_cleanup :
    starterProtonRun true (MainRunOutcome.raises PyExc.osError) =
      ⟨true, false, false, some PyExc.osError⟩ ∧
    starterProtonRun true (MainRunOutcome.completes 1) = ⟨true, true, true, none⟩ ∧
    starterProtonRun false (MainRunOutcome.completes 1) =
      ⟨false, false, true, none⟩ := by decide

end TruckersmpCli
